import Mathlib

/-!
Shallow embedding of the gateway-switcher route-rule engine.

The definitions below translate, item by item, the Python source of the
repository: `gateway_switcher/models/profile.py` (data model, rule matching,
serialization) and `gateway_switcher/services/route_service.py` together with
the route-rule portion of `gateway_switcher/services/profile_manager.py`
(bypass-list merge, PAC handling on profile apply).

External effects (DNS resolution via `socket.getaddrinfo`, `route ADD/DELETE`
subprocesses, PAC file writes/removals, exceptions raised while processing a
rule) are modelled by an explicit `RouteEffects` record of oracles, so that
every theorem quantifies over all possible outcomes of those effects.
Python's `re.match` is modelled by an oracle `String → String → Option Bool`
where `none` stands for the `re.error` path (invalid pattern) and `some b`
for a successful anchored-prefix match test returning `b`.

Python string primitives (`str.lower`, `str.endswith`, the `in` substring
test, `str.lstrip("*.")`, `str.strip`, `str.split(";")`) are implemented
directly on the character list so that all definitions reduce in the kernel;
`pyLower` covers the ASCII range, which is the case split Python's `str.lower`
performs on the ASCII domain patterns this program manipulates.
-/

namespace GatewaySwitcher

/-- `OperationResult` dataclass from `services/network_service.py`. -/
structure OperationResult where
  success : Bool
  message : String
deriving DecidableEq

/-- `RouteRule` dataclass from `models/profile.py` (all thirteen fields). -/
structure RouteRule where
  id : String
  name : String
  pattern : String
  match_type : String
  enabled : Bool
  use_custom_gateway : Bool
  custom_gateway : String
  bypass_proxy : Bool
  use_custom_proxy : Bool
  custom_proxy_server : String
  custom_proxy_port : Int
  use_custom_dns : Bool
  custom_dns : String
deriving DecidableEq

/-- ASCII case folding of one character, as `str.lower` does on ASCII. -/
def pyLowerChar (c : Char) : Char :=
  if 'A' ≤ c && c ≤ 'Z' then Char.ofNat (c.toNat + 32) else c

/-- Python `s.lower()` (ASCII range). -/
def pyLower (s : String) : String :=
  String.mk (s.data.map pyLowerChar)

/-- Python `s.endswith(t)`. -/
def pyEndsWith (s t : String) : Bool :=
  List.isPrefixOf t.data.reverse s.data.reverse

/-- Python `sub in s` (substring containment). -/
def pyContains (s sub : String) : Bool :=
  (List.range (s.data.length + 1)).any (fun i => List.isPrefixOf sub.data (s.data.drop i))

/-- `RouteRule.matches` from `models/profile.py`: lower-case both pattern and
domain, refuse empty pattern or empty domain, then dispatch on `match_type`;
the `regex` branch calls `re.match` (the `reMatch` oracle) and turns the
`re.error` path (`none`) into `false`. -/
def RouteRule.matches (reMatch : String → String → Option Bool)
    (r : RouteRule) (domain : String) : Bool :=
  if r.pattern == "" || domain == "" then false
  else
    let p := pyLower r.pattern
    let d := pyLower domain
    if r.match_type == "exact" then d == p
    else if r.match_type == "suffix" then d == p || pyEndsWith d ("." ++ p)
    else if r.match_type == "contains" then pyContains d p
    else if r.match_type == "regex" then (reMatch p d).getD false
    else false

/-- `NetworkSettings` dataclass from `models/profile.py`. -/
structure NetworkSettings where
  use_dhcp : Bool
  ip_address : String
  subnet_mask : String
  gateway : String
  use_dhcp_dns : Bool
  primary_dns : String
  secondary_dns : String
  adapter_name : String
deriving DecidableEq

/-- `ProxySettings` dataclass from `models/profile.py`. -/
structure ProxySettings where
  enabled : Bool
  proxy_server : String
  proxy_port : Int
  use_authentication : Bool
  username : String
  password : String
  bypass_list : String
  bypass_local : Bool
deriving DecidableEq

/-- `NetworkProfile` dataclass from `models/profile.py`. -/
structure NetworkProfile where
  id : String
  name : String
  is_default : Bool
  created_at : String
  last_modified : String
  network_settings : NetworkSettings
  proxy_settings : ProxySettings
  route_rules : List RouteRule
deriving DecidableEq

/-- The predicate scanned for by `NetworkProfile.get_matching_rule`. -/
def ruleHit (reMatch : String → String → Option Bool) (domain : String)
    (r : RouteRule) : Bool :=
  r.enabled && r.matches reMatch domain

/-- `NetworkProfile.get_matching_rule`: first rule in stored order with
`enabled` true and a successful `matches` test, `none` otherwise. -/
def NetworkProfile.get_matching_rule (reMatch : String → String → Option Bool)
    (p : NetworkProfile) (domain : String) : Option RouteRule :=
  p.route_rules.find? (ruleHit reMatch domain)

/-- The per-rule contribution inside the loop of
`RouteService.get_bypass_list_from_rules`. -/
def bypass_entries_of_rule (rule : RouteRule) : List String :=
  if rule.enabled && rule.bypass_proxy then
    if rule.match_type == "suffix" then ["*." ++ rule.pattern, rule.pattern]
    else if rule.match_type == "exact" then [rule.pattern]
    else if rule.match_type == "contains" then ["*" ++ rule.pattern ++ "*"]
    else [rule.pattern]
  else []

/-- `RouteService.get_bypass_list_from_rules` from `services/route_service.py`. -/
def get_bypass_list_from_rules (rules : List RouteRule) : List String :=
  rules.flatMap bypass_entries_of_rule

/-- Python `s.lstrip("*.")`: drop every leading `*` or `.` character, as done
by `RouteService._resolve_domain` before the DNS lookup. -/
def lstrip_star_dot (s : String) : String :=
  String.mk (s.data.dropWhile (fun c => c == '*' || c == '.'))

/-- Oracles for every external effect the route service touches.
`getaddr` models `socket.getaddrinfo` already wrapped by `_resolve_domain`'s
`set`/`gaierror` handling (a lookup failure is the empty list); `routeAddOk`
and `routeDeleteOk` give the return code of the `route ADD` / `route DELETE`
subprocesses; `routeStderr` the captured stderr text of a failed add;
`ruleRaises` models an exception escaping the per-rule `try` body (`some msg`
raises with text `msg`); `pacWriteOk`/`pacWriteErr` the outcome of
`Path.write_text`; `pacRemoveOk` whether `Path.unlink` succeeds; `pacPath`
the rendered `PAC_FILE_PATH`. -/
structure RouteEffects where
  getaddr : String → List String
  routeAddOk : String → String → Bool
  routeStderr : String → String
  routeDeleteOk : String → Bool
  ruleRaises : RouteRule → Option String
  pacWriteOk : Bool
  pacWriteErr : String
  pacRemoveOk : Bool
  pacPath : String

/-- `RouteService._resolve_domain`: strip the wildcard prefix, then look the
name up (lookup failures already soft-fail to `[]` inside `getaddr`). -/
def resolve_domain (eff : RouteEffects) (domain : String) : List String :=
  eff.getaddr (lstrip_star_dot domain)

/-- One iteration of the rule loop in `RouteService._apply_gateway_routes`.
The accumulator carries `routes_added`, the `errors` list, and the list of
`route ADD` invocations issued so far (destination, gateway). -/
def gateway_route_step (eff : RouteEffects)
    (acc : Nat × List String × List (String × String)) (rule : RouteRule) :
    Nat × List String × List (String × String) :=
  match eff.ruleRaises rule with
  | some e => (acc.1, acc.2.1 ++ ["Error processing " ++ rule.pattern ++ ": " ++ e], acc.2.2)
  | none =>
    let ips := resolve_domain eff rule.pattern
    if ips.isEmpty then
      (acc.1, acc.2.1 ++ ["Could not resolve " ++ rule.pattern], acc.2.2)
    else
      ips.foldl (fun a ip =>
        if eff.routeAddOk ip rule.custom_gateway then
          (a.1 + 1, a.2.1, a.2.2 ++ [(ip, rule.custom_gateway)])
        else
          (a.1, a.2.1 ++ ["Failed to add route for " ++ ip ++ ": " ++ eff.routeStderr ip],
           a.2.2 ++ [(ip, rule.custom_gateway)])) acc

/-- `RouteService._apply_gateway_routes`: loop over the rules, then build the
result message from `routes_added` and `errors`; the second component is the
list of `route ADD` commands issued. -/
def apply_gateway_routes (eff : RouteEffects) (rules : List RouteRule) :
    OperationResult × List (String × String) :=
  let st := rules.foldl (gateway_route_step eff) (0, [], [])
  if st.1 > 0 then
    (⟨true, "Added " ++ toString st.1 ++ " static route(s)."
        ++ (if st.2.1.isEmpty then "" else " Errors: " ++ toString st.2.1.length)⟩,
     st.2.2)
  else if !st.2.1.isEmpty then
    (⟨false, "Route errors: " ++ String.intercalate "; " (st.2.1.take 3)⟩, st.2.2)
  else
    (⟨true, "No gateway routes to add."⟩, st.2.2)

/-- The `proxy_return` selection at the top of the rule loop in
`RouteService._generate_pac_file`: `bypass_proxy` forces `DIRECT`, else a
custom proxy with a non-empty server yields a `PROXY` directive, else the
rule is skipped (`continue`). -/
def pac_proxy_return (r : RouteRule) : Option String :=
  if r.bypass_proxy then some "DIRECT"
  else if r.use_custom_proxy && r.custom_proxy_server != "" then
    some ("PROXY " ++ r.custom_proxy_server ++ ":" ++ toString r.custom_proxy_port)
  else none

/-- The `condition` string built per rule in `_generate_pac_file`, dispatching
on `match_type`; an unrecognised `match_type` is skipped (`continue`). -/
def pac_condition (r : RouteRule) (proxy_return : String) : Option String :=
  if r.match_type == "exact" then
    some ("if (host == \"" ++ r.pattern ++ "\") return \"" ++ proxy_return ++ "\";")
  else if r.match_type == "suffix" then
    some ("if (dnsDomainIs(host, \"" ++ r.pattern ++ "\") || dnsDomainIs(host, \"."
      ++ r.pattern ++ "\")) return \"" ++ proxy_return ++ "\";")
  else if r.match_type == "contains" then
    some ("if (host.indexOf(\"" ++ r.pattern ++ "\") !== -1) return \"" ++ proxy_return ++ "\";")
  else if r.match_type == "regex" then
    some ("if (shExpMatch(host, \"" ++ r.pattern ++ "\")) return \"" ++ proxy_return ++ "\";")
  else none

/-- The conditional clause a rule contributes to the PAC body, if any:
`proxy_return` selection followed by the `match_type` dispatch. -/
def pac_clause (r : RouteRule) : Option String :=
  match pac_proxy_return r with
  | none => none
  | some pr => pac_condition r pr

/-- The lines a single rule appends to the `conditions` list of
`_generate_pac_file`: nothing when the rule is skipped, otherwise an optional
`// name` comment line followed by the indented clause. -/
def pac_rule_lines (r : RouteRule) : List String :=
  match pac_clause r with
  | none => []
  | some c => (if r.name != "" then ["    // " ++ r.name] else []) ++ ["    " ++ c]

/-- The full `conditions` list accumulated by the rule loop of
`_generate_pac_file`. -/
def pac_conditions (rules : List RouteRule) : List String :=
  rules.flatMap pac_rule_lines

/-- Only the conditional clauses (comment lines left out), in emission order. -/
def pac_clauses (rules : List RouteRule) : List String :=
  rules.filterMap pac_clause

/-- The `default_return` computed by `_generate_pac_file`. -/
def pac_default_return (default_proxy_enabled : Bool)
    (default_proxy_server : String) (default_proxy_port : Int) : String :=
  if default_proxy_enabled && default_proxy_server != "" then
    "PROXY " ++ default_proxy_server ++ ":" ++ toString default_proxy_port
  else "DIRECT"

/-- The exact `pac_content` text assembled by `_generate_pac_file` (the
f-string with the joined `conditions` and the default return spliced in). -/
def pac_content (rules : List RouteRule) (default_proxy_enabled : Bool)
    (default_proxy_server : String) (default_proxy_port : Int) : String :=
  "// Gateway Switcher Auto-Generated PAC File\n"
    ++ "// Do not edit manually - changes will be overwritten\n\n"
    ++ "function FindProxyForURL(url, host) \x7b\n"
    ++ "    // Normalize hostname\n"
    ++ "    host = host.toLowerCase();\n\n"
    ++ "    // Custom route rules\n"
    ++ String.intercalate "\n" (pac_conditions rules) ++ "\n\n"
    ++ "    // Default\n"
    ++ "    return \""
    ++ pac_default_return default_proxy_enabled default_proxy_server default_proxy_port
    ++ "\";\n\x7d\n"

/-- The `OperationResult` returned by `_generate_pac_file` after attempting
`write_text` (the write outcome is the `pacWriteOk` oracle). -/
def generate_pac_file_result (eff : RouteEffects) : OperationResult :=
  if eff.pacWriteOk then ⟨true, "PAC file created: " ++ eff.pacPath⟩
  else ⟨false, "Failed to create PAC file: " ++ eff.pacWriteErr⟩

/-- The PAC-artifact effect an `apply_route_rules` call requests: either
write this content, or remove the file (`_remove_pac_file`). -/
inductive PacAction where
  | write (content : String)
  | remove
deriving DecidableEq

/-- Everything observable about one `RouteService.apply_route_rules` call:
the returned `OperationResult`, the `route ADD` commands issued, and the
PAC-artifact action taken. -/
structure ApplyOutcome where
  result : OperationResult
  routeCmds : List (String × String)
  pacAction : PacAction
deriving DecidableEq

/-- `RouteService.apply_route_rules` from `services/route_service.py`,
step for step: empty list → remove PAC and succeed; no enabled rule → remove
PAC and succeed; otherwise apply gateway routes for enabled rules with a
custom gateway, then either generate the PAC file for enabled rules flagged
`bypass_proxy` or `use_custom_proxy`, or remove it; always return success
with the pipe-joined messages. -/
def apply_route_rules (eff : RouteEffects) (rules : List RouteRule)
    (default_gateway : String) (default_proxy_enabled : Bool)
    (default_proxy_server : String) (default_proxy_port : Int) : ApplyOutcome :=
  if rules.isEmpty then
    ⟨⟨true, "No route rules to apply."⟩, [], PacAction.remove⟩
  else
    let enabled_rules := rules.filter (fun r => r.enabled)
    if enabled_rules.isEmpty then
      ⟨⟨true, "No enabled route rules to apply."⟩, [], PacAction.remove⟩
    else
      let gateway_rules := enabled_rules.filter
        (fun r => r.use_custom_gateway && r.custom_gateway != "")
      let gw := apply_gateway_routes eff gateway_rules
      let messages := if gateway_rules.isEmpty then [] else [gw.1.message]
      let routeCmds := if gateway_rules.isEmpty then [] else gw.2
      let proxy_rules := enabled_rules.filter
        (fun r => r.bypass_proxy || r.use_custom_proxy)
      if proxy_rules.isEmpty then
        ⟨⟨true, if messages.isEmpty then "Route rules applied."
                else String.intercalate " | " messages⟩,
         routeCmds, PacAction.remove⟩
      else
        let res := generate_pac_file_result eff
        ⟨⟨true, String.intercalate " | " (messages ++ [res.message])⟩,
         routeCmds,
         PacAction.write (pac_content proxy_rules default_proxy_enabled
           default_proxy_server default_proxy_port)⟩

/-- The filter pipeline that selects the rules handed to `_generate_pac_file`
inside `apply_route_rules`. -/
def proxy_rules_of (rules : List RouteRule) : List RouteRule :=
  (rules.filter (fun r => r.enabled)).filter
    (fun r => r.bypass_proxy || r.use_custom_proxy)

/-- Apply a requested `PacAction` to the PAC-file state (`some content` when
the file exists). A write only lands when `write_text` succeeds; a removal
only lands when `unlink` succeeds (`_remove_pac_file` swallows exceptions). -/
def run_pac_action (eff : RouteEffects) (st : Option String) :
    PacAction → Option String
  | PacAction.write c => if eff.pacWriteOk then some c else st
  | PacAction.remove => if eff.pacRemoveOk then none else st

/-- One iteration of the rule loop in `RouteService.clear_static_routes`.
The accumulator carries `routes_removed`, the (unused) `errors` list, and the
`route DELETE` commands issued. -/
def clear_route_step (eff : RouteEffects)
    (acc : Nat × List String × List String) (rule : RouteRule) :
    Nat × List String × List String :=
  match eff.ruleRaises rule with
  | some e => (acc.1, acc.2.1 ++ [e], acc.2.2)
  | none =>
    (resolve_domain eff rule.pattern).foldl (fun a ip =>
      if eff.routeDeleteOk ip then (a.1 + 1, a.2.1, a.2.2 ++ [ip])
      else (a.1, a.2.1, a.2.2 ++ [ip])) acc

/-- `RouteService.clear_static_routes`: select the rules with a custom
gateway set (note: with no `enabled` filter), issue a `route DELETE` per
resolved address, and always report success. The second component is the
list of `route DELETE` commands issued. -/
def clear_static_routes (eff : RouteEffects) (rules : List RouteRule) :
    OperationResult × List String :=
  let gateway_rules := rules.filter
    (fun r => r.use_custom_gateway && r.custom_gateway != "")
  let st := gateway_rules.foldl (clear_route_step eff) (0, [], [])
  if st.1 > 0 then
    (⟨true, "Removed " ++ toString st.1 ++ " static route(s)."⟩, st.2.2)
  else
    (⟨true, "No routes to remove."⟩, st.2.2)

/-- Python whitespace test used by `str.strip` (ASCII whitespace). -/
def pySpaceChar (c : Char) : Bool :=
  c == ' ' || c == '\t' || c == '\n' || c == '\x0d' || c == '\x0b' || c == '\x0c'

/-- Python `s.strip()`. -/
def pyStrip (s : String) : String :=
  String.mk (((s.data.dropWhile pySpaceChar).reverse.dropWhile pySpaceChar).reverse)

/-- Python `s.split(";")` on the character list. -/
def splitSemis (cs : List Char) : List (List Char) :=
  cs.foldr (fun c acc =>
    if c == ';' then [] :: acc
    else match acc with
      | [] => [[c]]
      | g :: gs => (c :: g) :: gs) [[]]

/-- Python `s.split(";")`. -/
def pySplitSemi (s : String) : List String :=
  (splitSemis s.data).map String.mk

/-- The de-duplicating merge loop of `ProfileManager.apply_profile`
(`for domain in bypass_domains: if domain not in existing_items:
existing_items.append(domain)`). -/
def merge_bypass (existing : List String) (derived : List String) : List String :=
  derived.foldl (fun acc d => if d ∈ acc then acc else acc ++ [d]) existing

/-- The bypass-list update performed by `ProfileManager.apply_profile` on the
profile's proxy settings: when route rules derived bypass domains and the
proxy is enabled, split the existing bypass string on `;`, strip and drop
empty items, merge the derived domains without duplicates, and re-join. -/
def update_bypass_list (proxy_enabled : Bool) (bypass_list : String)
    (bypass_domains : List String) : String :=
  if !bypass_domains.isEmpty && proxy_enabled then
    let existing_items := ((pySplitSemi bypass_list).map pyStrip).filter (fun b => b != "")
    String.intercalate ";" (merge_bypass existing_items bypass_domains)
  else bypass_list

/-- The PAC-artifact effect of the route-rule step of
`ProfileManager.apply_profile` (lines 218-229): `apply_route_rules` runs —
and hence can touch the PAC file — only when `profile.route_rules` is
non-empty (`if profile.route_rules:`); with an empty rule list the prior
PAC state is left untouched. -/
def apply_profile_pac_step (eff : RouteEffects) (rules : List RouteRule)
    (default_gateway : String) (proxy_enabled : Bool) (proxy_server : String)
    (proxy_port : Int) (prior : Option String) : Option String :=
  if rules.isEmpty then prior
  else
    run_pac_action eff prior
      (apply_route_rules eff rules default_gateway proxy_enabled
        proxy_server proxy_port).pacAction

/-- `AppSettings` dataclass from `models/profile.py`. -/
structure AppSettings where
  start_with_windows : Bool
  start_minimized : Bool
  show_notifications : Bool
  selected_adapter_name : String
  first_run_completed : Bool
deriving DecidableEq

/-- `ProfileCollection` dataclass from `models/profile.py`. -/
structure ProfileCollection where
  version : String
  active_profile_id : Option String
  profiles : List NetworkProfile
  settings : AppSettings
deriving DecidableEq

/-- The dictionary `dataclasses.asdict` produces from a `NetworkSettings`:
one entry per field, keyed by field name. -/
structure NetworkSettingsDict where
  use_dhcp : Bool
  ip_address : String
  subnet_mask : String
  gateway : String
  use_dhcp_dns : Bool
  primary_dns : String
  secondary_dns : String
  adapter_name : String
deriving DecidableEq

/-- `asdict(network_settings)` from `NetworkProfile.to_dict`. -/
def NetworkSettings.asdict (s : NetworkSettings) : NetworkSettingsDict :=
  ⟨s.use_dhcp, s.ip_address, s.subnet_mask, s.gateway, s.use_dhcp_dns,
   s.primary_dns, s.secondary_dns, s.adapter_name⟩

/-- `NetworkSettings(**data)` as used by `NetworkProfile.from_dict` on a
dictionary carrying every field. -/
def NetworkSettings.from_kwargs (d : NetworkSettingsDict) : NetworkSettings :=
  ⟨d.use_dhcp, d.ip_address, d.subnet_mask, d.gateway, d.use_dhcp_dns,
   d.primary_dns, d.secondary_dns, d.adapter_name⟩

/-- The dictionary `asdict` produces from a `ProxySettings`. -/
structure ProxySettingsDict where
  enabled : Bool
  proxy_server : String
  proxy_port : Int
  use_authentication : Bool
  username : String
  password : String
  bypass_list : String
  bypass_local : Bool
deriving DecidableEq

/-- The `{k: v for k, v in asdict(proxy_settings).items()}` comprehension of
`NetworkProfile.to_dict` (an identity copy of `asdict`). -/
def ProxySettings.asdict (s : ProxySettings) : ProxySettingsDict :=
  ⟨s.enabled, s.proxy_server, s.proxy_port, s.use_authentication,
   s.username, s.password, s.bypass_list, s.bypass_local⟩

/-- `ProxySettings(**data)` as used by `NetworkProfile.from_dict`. -/
def ProxySettings.from_kwargs (d : ProxySettingsDict) : ProxySettings :=
  ⟨d.enabled, d.proxy_server, d.proxy_port, d.use_authentication,
   d.username, d.password, d.bypass_list, d.bypass_local⟩

/-- The dictionary `asdict` produces from a `RouteRule` (all thirteen
fields, keyed by field name). -/
structure RouteRuleDict where
  id : String
  name : String
  pattern : String
  match_type : String
  enabled : Bool
  use_custom_gateway : Bool
  custom_gateway : String
  bypass_proxy : Bool
  use_custom_proxy : Bool
  custom_proxy_server : String
  custom_proxy_port : Int
  use_custom_dns : Bool
  custom_dns : String
deriving DecidableEq

/-- `asdict(r)` for a route rule, from `NetworkProfile.to_dict`. -/
def RouteRule.asdict (r : RouteRule) : RouteRuleDict :=
  ⟨r.id, r.name, r.pattern, r.match_type, r.enabled, r.use_custom_gateway,
   r.custom_gateway, r.bypass_proxy, r.use_custom_proxy, r.custom_proxy_server,
   r.custom_proxy_port, r.use_custom_dns, r.custom_dns⟩

/-- `RouteRule(**r)` as used by `NetworkProfile.from_dict`. -/
def RouteRule.from_kwargs (d : RouteRuleDict) : RouteRule :=
  ⟨d.id, d.name, d.pattern, d.match_type, d.enabled, d.use_custom_gateway,
   d.custom_gateway, d.bypass_proxy, d.use_custom_proxy, d.custom_proxy_server,
   d.custom_proxy_port, d.use_custom_dns, d.custom_dns⟩

/-- The dictionary produced by `NetworkProfile.to_dict` (and consumed by
`NetworkProfile.from_dict`; on this output format every key is present, so
the `data.get(key, default)` fallbacks of `from_dict` never fire). -/
structure NetworkProfileDict where
  id : String
  name : String
  is_default : Bool
  created_at : String
  last_modified : String
  network_settings : NetworkSettingsDict
  proxy_settings : ProxySettingsDict
  route_rules : List RouteRuleDict
deriving DecidableEq

/-- `NetworkProfile.to_dict` from `models/profile.py`. -/
def NetworkProfile.to_dict (p : NetworkProfile) : NetworkProfileDict :=
  ⟨p.id, p.name, p.is_default, p.created_at, p.last_modified,
   p.network_settings.asdict, p.proxy_settings.asdict,
   p.route_rules.map RouteRule.asdict⟩

/-- `NetworkProfile.from_dict` from `models/profile.py`, on a dictionary in
`to_dict`'s output format (every key present). -/
def NetworkProfile.from_dict (d : NetworkProfileDict) : NetworkProfile :=
  ⟨d.id, d.name, d.is_default, d.created_at, d.last_modified,
   NetworkSettings.from_kwargs d.network_settings,
   ProxySettings.from_kwargs d.proxy_settings,
   d.route_rules.map RouteRule.from_kwargs⟩

/-- The dictionary `asdict` produces from `AppSettings`. -/
structure AppSettingsDict where
  start_with_windows : Bool
  start_minimized : Bool
  show_notifications : Bool
  selected_adapter_name : String
  first_run_completed : Bool
deriving DecidableEq

/-- `asdict(settings)` from `ProfileCollection.to_dict`. -/
def AppSettings.asdict (s : AppSettings) : AppSettingsDict :=
  ⟨s.start_with_windows, s.start_minimized, s.show_notifications,
   s.selected_adapter_name, s.first_run_completed⟩

/-- `AppSettings(**data)` as used by `ProfileCollection.from_dict`. -/
def AppSettings.from_kwargs (d : AppSettingsDict) : AppSettings :=
  ⟨d.start_with_windows, d.start_minimized, d.show_notifications,
   d.selected_adapter_name, d.first_run_completed⟩

/-- The top-level persisted document shape (`version`, `active_profile_id`,
`profiles`, `settings`). -/
structure ProfileCollectionDict where
  version : String
  active_profile_id : Option String
  profiles : List NetworkProfileDict
  settings : AppSettingsDict
deriving DecidableEq

/-- `ProfileCollection.to_dict` from `models/profile.py`. -/
def ProfileCollection.to_dict (c : ProfileCollection) : ProfileCollectionDict :=
  ⟨c.version, c.active_profile_id, c.profiles.map NetworkProfile.to_dict,
   c.settings.asdict⟩

/-- `ProfileCollection.from_dict` from `models/profile.py`, on a dictionary
in `to_dict`'s output format. -/
def ProfileCollection.from_dict (d : ProfileCollectionDict) : ProfileCollection :=
  ⟨d.version, d.active_profile_id, d.profiles.map NetworkProfile.from_dict,
   AppSettings.from_kwargs d.settings⟩

/-- `ProfileCollection.to_json`: `json.dumps(self.to_dict(), indent=2)`.
The stdlib encoder is the `dumps` oracle. -/
def ProfileCollection.to_json (dumps : ProfileCollectionDict → String)
    (c : ProfileCollection) : String :=
  dumps c.to_dict

/-- `ProfileCollection.from_json`: `from_dict(json.loads(json_str))`.
The stdlib decoder is the `loads` oracle (`none` models a parse error). -/
def ProfileCollection.from_json (loads : String → Option ProfileCollectionDict)
    (json_str : String) : Option ProfileCollection :=
  (loads json_str).map ProfileCollection.from_dict

/-! ## Helper lemmas -/

/-- A successful `List.find?` splits its list into a prefix of elements that
fail the predicate, the found element, and a tail. -/
theorem find?_eq_some_split {α : Type} (p : α → Bool) (l : List α) (a : α)
    (h : l.find? p = some a) :
    p a = true ∧ ∃ pre post, l = pre ++ a :: post ∧ ∀ x ∈ pre, p x = false := by
  induction l with
  | nil => simp [List.find?] at h
  | cons b t ih =>
    by_cases hb : p b
    · rw [List.find?_cons_of_pos t hb] at h
      cases h
      exact ⟨hb, [], t, rfl, by simp⟩
    · rw [List.find?_cons_of_neg t hb] at h
      obtain ⟨hpa, pre, post, rfl, hpre⟩ := ih h
      refine ⟨hpa, b :: pre, post, rfl, ?_⟩
      intro x hx
      rcases List.mem_cons.mp hx with rfl | hx'
      · simpa using hb
      · exact hpre x hx'

/-- `List.find?` skips over an element on which the predicate is false. -/
theorem find?_middle_neg {α : Type} (p : α → Bool) (d : α) (hd : p d = false)
    (xs ys : List α) : (xs ++ d :: ys).find? p = (xs ++ ys).find? p := by
  induction xs with
  | nil =>
    simpa using List.find?_cons_of_neg ys (by simp [hd])
  | cons a t ih =>
    by_cases ha : p a
    · simp [List.find?_cons_of_pos _ ha]
    · simp only [List.cons_append, List.find?_cons_of_neg _ ha, ih]

/-! ## Claim theorems -/

/-- C2: `get_matching_rule` returns `none` exactly when no rule in the stored
list is both enabled and matching, and when it returns a rule, that rule is
enabled, matches, and is the earliest such rule in stored list order (every
rule before it in the list fails the enabled-and-matches test). -/
theorem get_matching_rule_first_enabled_match
    (reMatch : String → String → Option Bool) (p : NetworkProfile)
    (domain : String) :
    (p.get_matching_rule reMatch domain = none ↔
      ∀ r ∈ p.route_rules,
        ¬(r.enabled = true ∧ r.matches reMatch domain = true)) ∧
    ∀ r, p.get_matching_rule reMatch domain = some r →
      r.enabled = true ∧ r.matches reMatch domain = true ∧
      ∃ pre post, p.route_rules = pre ++ r :: post ∧
        ∀ a ∈ pre, ¬(a.enabled = true ∧ a.matches reMatch domain = true) := by
  constructor
  · rw [NetworkProfile.get_matching_rule, List.find?_eq_none]
    constructor <;> intro h r hr <;>
      simpa [ruleHit, Bool.and_eq_true] using h r hr
  · intro r hr
    obtain ⟨hpr, pre, post, heq, hpre⟩ :=
      find?_eq_some_split (ruleHit reMatch domain) p.route_rules r hr
    rw [ruleHit, Bool.and_eq_true] at hpr
    refine ⟨hpr.1, hpr.2, pre, post, heq, ?_⟩
    intro a ha
    have := hpre a ha
    simp only [ruleHit, Bool.and_eq_true] at this ⊢
    intro hc
    rw [hc.1, hc.2] at this
    simp at this

/-- C7: for a rule with `match_type = "regex"`, `matches` equals the `re.match`
oracle's answer on the lower-cased pattern and domain (with the empty-pattern
and empty-domain guard in front), and the `re.error` path (`none`) always
yields `false`; as a total Lean function it can never raise. -/
theorem regex_rule_matches_spec (reMatch : String → String → Option Bool)
    (r : RouteRule) (domain : String) (hmt : r.match_type = "regex") :
    (∀ d, reMatch (pyLower r.pattern) (pyLower d) = none →
      r.matches reMatch d = false) ∧
    r.matches reMatch domain =
      (!(r.pattern == "") && !(domain == "") &&
        (reMatch (pyLower r.pattern) (pyLower domain)).getD false) := by
  have key : ∀ d : String, r.matches reMatch d =
      (!(r.pattern == "") && !(d == "") &&
        (reMatch (pyLower r.pattern) (pyLower d)).getD false) := by
    intro d
    unfold RouteRule.matches
    rw [hmt]
    by_cases hp : r.pattern = ""
    · simp [hp]
    · by_cases hd : d = ""
      · simp [hp, hd]
      · simp [hp, hd]
  refine ⟨fun d hn => ?_, key domain⟩
  rw [key d, hn]
  simp

/-- C4: for every rule list, every parameter choice, and every outcome of the
external effects (DNS resolution, `route ADD`, per-rule exceptions, PAC file
write), `apply_route_rules` returns `success = true`; step failures only feed
the aggregated message. -/
theorem apply_route_rules_always_success
    (eff : RouteEffects) (rules : List RouteRule) (default_gateway : String)
    (default_proxy_enabled : Bool) (default_proxy_server : String)
    (default_proxy_port : Int) :
    (apply_route_rules eff rules default_gateway default_proxy_enabled
      default_proxy_server default_proxy_port).result.success = true := by
  simp only [apply_route_rules]
  split
  · rfl
  · split
    · rfl
    · split
      · rfl
      · rfl

/-- `apply_route_rules` treats two non-empty rule lists with the same enabled
rules identically. -/
theorem apply_route_rules_congr_enabled (eff : RouteEffects)
    (rules₁ rules₂ : List RouteRule)
    (h : rules₁.filter (fun r => r.enabled) = rules₂.filter (fun r => r.enabled))
    (h1 : rules₁ ≠ []) (h2 : rules₂ ≠ [])
    (gw : String) (en : Bool) (srv : String) (port : Int) :
    apply_route_rules eff rules₁ gw en srv port =
      apply_route_rules eff rules₂ gw en srv port := by
  have hn1 : ¬(rules₁.isEmpty = true) := by simpa [List.isEmpty_iff] using h1
  have hn2 : ¬(rules₂.isEmpty = true) := by simpa [List.isEmpty_iff] using h2
  simp only [apply_route_rules]
  rw [h, if_neg hn1, if_neg hn2]

/-- C1 (amended): a rule with `enabled = false` contributes nothing to
matching, to the bypass domain list, to the `route ADD` commands of
`apply_route_rules`, or to the generated/removed PAC artifact; but
`clear_static_routes` selects its rules by the gateway-override fields alone,
so disabled rules are *not* skipped there — its behaviour is exactly that on
the gateway-field filter of the input, `enabled` ignored. -/
theorem disabled_rules_inert_amended
    (reMatch : String → String → Option Bool) (eff : RouteEffects)
    (d : RouteRule) (hd : d.enabled = false)
    (xs ys rules : List RouteRule) (p : NetworkProfile)
    (domain gw srv : String) (en : Bool) (port : Int) :
    (NetworkProfile.get_matching_rule reMatch
        { p with route_rules := xs ++ d :: ys } domain =
      NetworkProfile.get_matching_rule reMatch
        { p with route_rules := xs ++ ys } domain) ∧
    (get_bypass_list_from_rules (xs ++ d :: ys) =
      get_bypass_list_from_rules (xs ++ ys)) ∧
    ((apply_route_rules eff (xs ++ d :: ys) gw en srv port).routeCmds =
      (apply_route_rules eff (xs ++ ys) gw en srv port).routeCmds) ∧
    ((apply_route_rules eff (xs ++ d :: ys) gw en srv port).pacAction =
      (apply_route_rules eff (xs ++ ys) gw en srv port).pacAction) ∧
    (clear_static_routes eff rules =
      clear_static_routes eff (rules.filter
        (fun r => r.use_custom_gateway && r.custom_gateway != ""))) := by
  have hdHit : ruleHit reMatch domain d = false := by simp [ruleHit, hd]
  have hfilter : (xs ++ d :: ys).filter (fun r => r.enabled) =
      (xs ++ ys).filter (fun r => r.enabled) := by
    simp [List.filter_append, List.filter_cons, hd]
  have happly : xs ++ ys ≠ [] →
      apply_route_rules eff (xs ++ d :: ys) gw en srv port =
        apply_route_rules eff (xs ++ ys) gw en srv port := by
    intro hne
    exact apply_route_rules_congr_enabled eff _ _ hfilter (by simp) hne gw en srv port
  refine ⟨?_, ?_, ?_, ?_, ?_⟩
  · simp only [NetworkProfile.get_matching_rule]
    exact find?_middle_neg _ d hdHit xs ys
  · simp [get_bypass_list_from_rules, List.flatMap_append, List.flatMap_cons,
      bypass_entries_of_rule, hd]
  · by_cases hxy : xs ++ ys = []
    · obtain ⟨hx, hy⟩ := List.append_eq_nil.mp hxy
      subst hx; subst hy
      simp [apply_route_rules, List.filter_cons, hd]
    · rw [happly hxy]
  · by_cases hxy : xs ++ ys = []
    · obtain ⟨hx, hy⟩ := List.append_eq_nil.mp hxy
      subst hx; subst hy
      simp [apply_route_rules, List.filter_cons, hd]
    · rw [happly hxy]
  · have hff : (rules.filter
        (fun r => r.use_custom_gateway && r.custom_gateway != "")).filter
          (fun r => r.use_custom_gateway && r.custom_gateway != "") =
        rules.filter (fun r => r.use_custom_gateway && r.custom_gateway != "") := by
      rw [List.filter_filter]
      exact List.filter_congr (fun x _ => Bool.and_self _)
    simp only [clear_static_routes, hff]

/-- A fully deterministic effects instance used for concrete evaluations:
every name resolves to `1.2.3.4`, every route command and the PAC write and
removal succeed, and no rule raises. -/
def effConst : RouteEffects :=
  ⟨fun _ => ["1.2.3.4"], fun _ _ => true, fun _ => "", fun _ => true,
   fun _ => none, true, "", true, "C:/GatewaySwitcher/proxy.pac"⟩

/-- A disabled rule carrying a custom-gateway override. -/
def disabledGwRule : RouteRule :=
  ⟨"r1", "disabled gw", "example.com", "exact", false, true, "10.0.0.1",
   false, false, "", 8080, false, ""⟩

/-- C1 counterexample: a rule with `enabled = false` still contributes a
`route DELETE` command in `clear_static_routes` (here for its resolved
address `1.2.3.4`), while the rule-free call issues none — the claim that
disabled rules are inert in `clear_static_routes` is false on the code. -/
theorem disabled_rule_not_inert_in_clear :
    disabledGwRule.enabled = false ∧
    (clear_static_routes effConst [disabledGwRule]).2 = ["1.2.3.4"] ∧
    (clear_static_routes effConst []).2 = [] := by
  exact ⟨rfl, by decide, rfl⟩

/-- The documented domain of `match_type` (`models/profile.py`:
`"exact", "suffix", "contains", "regex"`; the editing layer rejects
malformed rules before they reach the core). -/
def valid_match_types : List String := ["exact", "suffix", "contains", "regex"]

/-- The combined condition for a rule of the original list to contribute a
clause to the PAC script produced through `apply_route_rules`: survive the
enabled filter and the proxy-flag filter, then not be skipped inside
`_generate_pac_file`. -/
def pac_contributes (r : RouteRule) : Bool :=
  r.enabled && (r.bypass_proxy || (r.use_custom_proxy && r.custom_proxy_server != ""))

/-- For any of the four documented match types the `match_type` dispatch of
`_generate_pac_file` always produces a condition. -/
theorem pac_condition_isSome_of_valid (r : RouteRule)
    (h : r.match_type ∈ valid_match_types) (pr : String) :
    (pac_condition r pr).isSome = true := by
  simp only [valid_match_types, List.mem_cons, List.not_mem_nil, or_false] at h
  unfold pac_condition
  rcases h with h | h | h | h <;> simp [h]

/-- For a rule with a documented match type, a clause is emitted exactly when
`bypass_proxy` is set or a custom proxy with a non-empty server is set. -/
theorem pac_clause_isSome_iff (r : RouteRule)
    (h : r.match_type ∈ valid_match_types) :
    (pac_clause r).isSome =
      (r.bypass_proxy || (r.use_custom_proxy && r.custom_proxy_server != "")) := by
  unfold pac_clause pac_proxy_return
  by_cases hb : r.bypass_proxy = true
  · simp [hb, pac_condition_isSome_of_valid r h]
  · have hb' : r.bypass_proxy = false := by simpa using hb
    by_cases hu : (r.use_custom_proxy && r.custom_proxy_server != "") = true
    · simp [hb', hu, pac_condition_isSome_of_valid r h]
    · have hu' : (r.use_custom_proxy && r.custom_proxy_server != "") = false := by
        simpa using hu
      simp [hb', hu']

/-- The two filters of `apply_route_rules` merged into one. -/
theorem proxy_rules_of_eq_filter (rules : List RouteRule) :
    proxy_rules_of rules = rules.filter
      (fun r => (r.bypass_proxy || r.use_custom_proxy) && r.enabled) := by
  simp [proxy_rules_of, List.filter_filter]

/-- C5: assuming the data-model invariant that every `match_type` is one of
the four documented values, the clause list of the PAC script generated by
the `apply_route_rules` pipeline is exactly one clause per rule satisfying
`pac_contributes` (enabled, and `bypass_proxy` or custom proxy with non-empty
server), in rule-list order; every other rule — disabled rules included —
contributes neither a clause nor any `conditions` line. -/
theorem pac_clauses_exactly_contributing_rules (rules : List RouteRule)
    (hmt : ∀ r ∈ rules, r.match_type ∈ valid_match_types) :
    pac_clauses (proxy_rules_of rules) =
      (rules.filter pac_contributes).map (fun r => (pac_clause r).getD "") ∧
    pac_conditions (proxy_rules_of rules) =
      (rules.filter pac_contributes).flatMap pac_rule_lines ∧
    ∀ r ∈ rules, pac_contributes r = true → (pac_clause r).isSome = true := by
  have third : ∀ r ∈ rules, pac_contributes r = true → (pac_clause r).isSome = true := by
    intro r hr hc
    rw [pac_clause_isSome_iff r (hmt r hr)]
    simp only [pac_contributes, Bool.and_eq_true] at hc
    exact hc.2
  have main : ∀ (l : List RouteRule),
      (∀ r ∈ l, r.match_type ∈ valid_match_types) →
      ((l.filter (fun r => (r.bypass_proxy || r.use_custom_proxy) && r.enabled)).filterMap
          pac_clause =
        (l.filter pac_contributes).map (fun r => (pac_clause r).getD "")) ∧
      ((l.filter (fun r => (r.bypass_proxy || r.use_custom_proxy) && r.enabled)).flatMap
          pac_rule_lines =
        (l.filter pac_contributes).flatMap pac_rule_lines) := by
    intro l hl
    induction l with
    | nil => exact ⟨rfl, rfl⟩
    | cons a t ih =>
      have ha := hl a (List.mem_cons_self a t)
      have ht := fun r hr => hl r (List.mem_cons_of_mem a hr)
      obtain ⟨ih1, ih2⟩ := ih ht
      by_cases hc : pac_contributes a = true
      · have hq : ((a.bypass_proxy || a.use_custom_proxy) && a.enabled) = true := by
          simp only [pac_contributes, Bool.and_eq_true] at hc
          obtain ⟨he, hx⟩ := hc
          rw [Bool.or_eq_true] at hx
          rcases hx with hbp | hup
          · simp [he, hbp]
          · rw [Bool.and_eq_true] at hup
            simp [he, hup.1]
        have hs : (pac_clause a).isSome = true := by
          rw [pac_clause_isSome_iff a ha]
          simp only [pac_contributes, Bool.and_eq_true] at hc
          exact hc.2
        obtain ⟨c, hcl⟩ := Option.isSome_iff_exists.mp hs
        constructor
        · simp [List.filter_cons, hq, hc, List.filterMap_cons, hcl, ih1]
        · simp [List.filter_cons, hq, hc, List.flatMap_cons, ih2]
      · have hc' : pac_contributes a = false := by simpa using hc
        by_cases hq : ((a.bypass_proxy || a.use_custom_proxy) && a.enabled) = true
        · have he : a.enabled = true := by
            rw [Bool.and_eq_true] at hq
            exact hq.2
          have hn : pac_clause a = none := by
            cases hcl : pac_clause a with
            | none => rfl
            | some c =>
              have hsome : (pac_clause a).isSome = true := by rw [hcl]; rfl
              rw [pac_clause_isSome_iff a ha] at hsome
              simp only [pac_contributes] at hc'
              rw [he, hsome] at hc'
              simp at hc'
          have hlines : pac_rule_lines a = [] := by simp [pac_rule_lines, hn]
          constructor
          · simp [List.filter_cons, hq, hc', List.filterMap_cons, hn, ih1]
          · simp [List.filter_cons, hq, hc', List.flatMap_cons, hn, hlines, ih2]
        · have hq' : ((a.bypass_proxy || a.use_custom_proxy) && a.enabled) = false := by
            simpa using hq
          exact ⟨by simp [List.filter_cons, hq', hc', ih1],
                 by simp [List.filter_cons, hq', hc', ih2]⟩
  obtain ⟨m1, m2⟩ := main rules hmt
  rw [proxy_rules_of_eq_filter]
  exact ⟨m1, m2, third⟩

/-- The behaviour of the merge loop of `ProfileManager.apply_profile`:
existing entries are kept (in place, first), and of the derived entries
exactly those not already present are appended, each at most once, in first
occurrence order. -/
theorem merge_bypass_spec (derived existing : List String) :
    ∃ fresh, merge_bypass existing derived = existing ++ fresh ∧ fresh.Nodup ∧
      (∀ x ∈ fresh, x ∉ existing ∧ x ∈ derived) ∧
      ∀ x ∈ derived, x ∈ merge_bypass existing derived := by
  induction derived generalizing existing with
  | nil => exact ⟨[], by simp [merge_bypass], List.nodup_nil, by simp, by simp⟩
  | cons d ds ih =>
    have hstep : merge_bypass existing (d :: ds) =
        merge_bypass (if d ∈ existing then existing else existing ++ [d]) ds := by
      simp only [merge_bypass, List.foldl_cons]
    by_cases hmem : d ∈ existing
    · obtain ⟨fresh, heq, hnd, hmm, hall⟩ := ih existing
      rw [hstep, if_pos hmem]
      refine ⟨fresh, heq, hnd, ?_, ?_⟩
      · intro x hx
        obtain ⟨hx1, hx2⟩ := hmm x hx
        exact ⟨hx1, List.mem_cons_of_mem d hx2⟩
      · intro x hx
        rcases List.mem_cons.mp hx with rfl | hx'
        · rw [heq]; exact List.mem_append.mpr (Or.inl hmem)
        · exact hall x hx'
    · obtain ⟨fresh, heq, hnd, hmm, hall⟩ := ih (existing ++ [d])
      rw [hstep, if_neg hmem]
      refine ⟨d :: fresh, ?_, ?_, ?_, ?_⟩
      · rw [heq, List.append_assoc, List.singleton_append]
      · rw [List.nodup_cons]
        refine ⟨fun hdf => ?_, hnd⟩
        exact (hmm d hdf).1 (List.mem_append.mpr (Or.inr (List.mem_singleton.mpr rfl)))
      · intro x hx
        rcases List.mem_cons.mp hx with rfl | hx'
        · exact ⟨hmem, List.mem_cons_self x ds⟩
        · obtain ⟨hx1, hx2⟩ := hmm x hx'
          exact ⟨fun hcx => hx1 (List.mem_append.mpr (Or.inl hcx)),
                 List.mem_cons_of_mem d hx2⟩
      · intro x hx
        rcases List.mem_cons.mp hx with rfl | hx'
        · rw [heq]
          exact List.mem_append.mpr
            (Or.inl (List.mem_append.mpr (Or.inr (List.mem_singleton.mpr rfl))))
        · exact hall x hx'

/-- C8: for any rule list — in particular one containing two distinct enabled
`bypass_proxy` rules sharing pattern and match type — merging the derived
bypass domains into the profile's existing bypass items keeps the existing
entries first and unchanged, appends only entries not already present, each
at most once (the appended block is duplicate-free), and every derived entry
ends up present in the merged list. -/
theorem bypass_merge_no_duplicates (rules : List RouteRule)
    (existing : List String) (r₁ r₂ : RouteRule)
    (h₁ : r₁ ∈ rules) (h₂ : r₂ ∈ rules) (hne : r₁ ≠ r₂)
    (he₁ : r₁.enabled = true) (he₂ : r₂.enabled = true)
    (hb₁ : r₁.bypass_proxy = true) (hb₂ : r₂.bypass_proxy = true)
    (hp : r₁.pattern = r₂.pattern) (hm : r₁.match_type = r₂.match_type) :
    ∃ fresh,
      merge_bypass existing (get_bypass_list_from_rules rules) =
        existing ++ fresh ∧
      fresh.Nodup ∧
      (∀ x ∈ fresh, x ∉ existing ∧ x ∈ get_bypass_list_from_rules rules) ∧
      ∀ x ∈ get_bypass_list_from_rules rules,
        x ∈ merge_bypass existing (get_bypass_list_from_rules rules) :=
  merge_bypass_spec (get_bypass_list_from_rules rules) existing

/-- C6: PAC generation is a pure function of the rule list and the default
proxy parameters — identical inputs produce byte-identical script text. -/
theorem pac_generation_deterministic
    (rules₁ rules₂ : List RouteRule) (en₁ en₂ : Bool) (srv₁ srv₂ : String)
    (port₁ port₂ : Int)
    (h : rules₁ = rules₂ ∧ en₁ = en₂ ∧ srv₁ = srv₂ ∧ port₁ = port₂) :
    pac_content rules₁ en₁ srv₁ port₁ = pac_content rules₂ en₂ srv₂ port₂ := by
  obtain ⟨rfl, rfl, rfl, rfl⟩ := h
  rfl

/-- One route rule survives `asdict` followed by `RouteRule(**d)` unchanged. -/
theorem rule_roundtrip (r : RouteRule) : RouteRule.from_kwargs r.asdict = r := rfl

/-- A rule list survives the `to_dict`/`from_dict` mapping unchanged. -/
theorem rules_map_roundtrip (l : List RouteRule) :
    (l.map RouteRule.asdict).map RouteRule.from_kwargs = l := by
  induction l with
  | nil => rfl
  | cons a t ih =>
    rw [List.map_cons, List.map_cons, ih]
    exact rfl

/-- `NetworkProfile.from_dict` inverts `NetworkProfile.to_dict`. -/
theorem profile_roundtrip (p : NetworkProfile) :
    NetworkProfile.from_dict p.to_dict = p := by
  have h := rules_map_roundtrip p.route_rules
  simp only [NetworkProfile.to_dict, NetworkProfile.from_dict, h]
  exact rfl

/-- A profile list survives the `to_dict`/`from_dict` mapping unchanged. -/
theorem profiles_map_roundtrip (l : List NetworkProfile) :
    (l.map NetworkProfile.to_dict).map NetworkProfile.from_dict = l := by
  induction l with
  | nil => rfl
  | cons a t ih => rw [List.map_cons, List.map_cons, ih, profile_roundtrip a]

/-- `ProfileCollection.from_dict` inverts `ProfileCollection.to_dict`. -/
theorem collection_roundtrip (c : ProfileCollection) :
    ProfileCollection.from_dict c.to_dict = c := by
  have h := profiles_map_roundtrip c.profiles
  simp only [ProfileCollection.to_dict, ProfileCollection.from_dict, h]
  exact rfl

/-- C9: serialization round-trips losslessly — `from_dict ∘ to_dict` is the
identity on profiles (hence on every route-rule field), and through
`to_json`/`from_json` the collection comes back exactly, for any stdlib
JSON codec pair satisfying the `loads (dumps d) = d` contract at the
serialized document. -/
theorem serialization_roundtrip_rules (p : NetworkProfile)
    (c : ProfileCollection) (dumps : ProfileCollectionDict → String)
    (loads : String → Option ProfileCollectionDict)
    (hcodec : loads (dumps c.to_dict) = some c.to_dict) :
    NetworkProfile.from_dict p.to_dict = p ∧
    (NetworkProfile.from_dict p.to_dict).route_rules = p.route_rules ∧
    ProfileCollection.from_json loads (ProfileCollection.to_json dumps c) =
      some c := by
  refine ⟨profile_roundtrip p, by rw [profile_roundtrip p], ?_⟩
  unfold ProfileCollection.from_json ProfileCollection.to_json
  rw [hcodec, Option.map_some', collection_roundtrip]

/-- C10: when every enabled proxy-flagged rule has `use_custom_proxy` set
with an empty `custom_proxy_server` (and there is at least one such rule),
`apply_route_rules` still writes a PAC file — the generate-or-remove decision
only tests the flags `bypass_proxy`/`use_custom_proxy` — and the written
script carries no rule clause at all. -/
theorem pac_written_despite_empty_custom_server (eff : RouteEffects)
    (rules : List RouteRule) (gw : String) (en : Bool) (srv : String)
    (port : Int)
    (hex : ∃ r ∈ rules, r.enabled = true ∧
      (r.bypass_proxy = true ∨ r.use_custom_proxy = true))
    (hall : ∀ r ∈ rules, r.enabled = true →
      (r.bypass_proxy = true ∨ r.use_custom_proxy = true) →
      r.bypass_proxy = false ∧ r.use_custom_proxy = true ∧
        r.custom_proxy_server = "") :
    (apply_route_rules eff rules gw en srv port).pacAction =
      PacAction.write (pac_content (proxy_rules_of rules) en srv port) ∧
    pac_conditions (proxy_rules_of rules) = [] := by
  obtain ⟨r0, hr0, he0, hf0⟩ := hex
  have hf0' : (r0.bypass_proxy || r0.use_custom_proxy) = true := by
    obtain ⟨-, hu, -⟩ := hall r0 hr0 he0 hf0
    simp [hu]
  have hmem : r0 ∈ (rules.filter (fun r => r.enabled)).filter
      (fun r => r.bypass_proxy || r.use_custom_proxy) :=
    List.mem_filter.mpr ⟨List.mem_filter.mpr ⟨hr0, he0⟩, hf0'⟩
  constructor
  · have h1 : ¬(rules.isEmpty = true) := by
      simpa [List.isEmpty_iff] using List.ne_nil_of_mem hr0
    have h2 : ¬((rules.filter (fun r => r.enabled)).isEmpty = true) := by
      simpa [List.isEmpty_iff] using
        List.ne_nil_of_mem (List.mem_filter.mpr ⟨hr0, he0⟩)
    have h3 : ¬(((rules.filter (fun r => r.enabled)).filter
        (fun r => r.bypass_proxy || r.use_custom_proxy)).isEmpty = true) := by
      simpa [List.isEmpty_iff] using List.ne_nil_of_mem hmem
    simp only [apply_route_rules]
    rw [if_neg h1, if_neg h2, if_neg h3]
    exact rfl
  · have hnil : ∀ r ∈ proxy_rules_of rules, pac_rule_lines r = [] := by
      intro r hr
      simp only [proxy_rules_of, List.mem_filter] at hr
      obtain ⟨⟨hrr, hen⟩, hflag⟩ := hr
      rw [Bool.or_eq_true] at hflag
      obtain ⟨hb, hu, hs⟩ := hall r hrr hen hflag
      simp [pac_rule_lines, pac_clause, pac_proxy_return, hb, hu, hs]
    simp only [pac_conditions]
    exact List.flatMap_eq_nil_iff.mpr hnil

/-- C3 (code bug): for an empty rule list the route service itself orders PAC
removal — and removal clears a stale artifact — but
`ProfileManager.apply_profile` guards the route-rule step with
`if profile.route_rules:`, so applying a profile with an empty rule list
leaves a previously generated PAC artifact in place; a non-empty rule list
whose rules are all disabled does reach the route service and the stale
artifact is removed. -/
theorem apply_profile_orphans_pac_on_empty_rules :
    apply_profile_pac_step effConst [] "gw" false "" 8080 (some "stale pac") =
      some "stale pac" ∧
    (apply_route_rules effConst [] "gw" false "" 8080).pacAction =
      PacAction.remove ∧
    run_pac_action effConst (some "stale pac") PacAction.remove = none ∧
    apply_profile_pac_step effConst [disabledGwRule] "gw" false "" 8080
      (some "stale pac") = none := by
  exact ⟨rfl, rfl, rfl, by decide⟩

/-! ## Concrete instances used by the witness theorems -/

/-- An oracle on which every regex pattern fails to compile (`re.error`). -/
def reNone : String → String → Option Bool := fun _ _ => none

/-- An enabled suffix rule that bypasses the proxy. -/
def bypassSuffixRule : RouteRule :=
  ⟨"r2", "", "google.com", "suffix", true, false, "", true, false, "", 8080,
   false, ""⟩

/-- A second enabled bypass rule with the same pattern and match type as
`bypassSuffixRule` but a different id. -/
def bypassSuffixRule2 : RouteRule :=
  ⟨"r3", "", "google.com", "suffix", true, false, "", true, false, "", 8080,
   false, ""⟩

/-- An enabled regex rule. -/
def regexRule : RouteRule :=
  ⟨"r4", "", "^api[0-9]+", "regex", true, false, "", false, false, "", 8080,
   false, ""⟩

/-- An enabled rule with `use_custom_proxy` set but an empty server. -/
def emptyServerRule : RouteRule :=
  ⟨"r5", "", "d.com", "exact", true, false, "", false, true, "", 8080,
   false, ""⟩

/-- Default-like network settings. -/
def netSet0 : NetworkSettings :=
  ⟨true, "", "255.255.255.0", "", true, "", "", ""⟩

/-- Default-like proxy settings. -/
def proxySet0 : ProxySettings :=
  ⟨false, "", 8080, false, "", "", "localhost;127.0.0.1", true⟩

/-- A concrete profile with no route rules. -/
def profile0 : NetworkProfile :=
  ⟨"p0", "New Profile", false, "t0", "t0", netSet0, proxySet0, []⟩

/-- Default-like app settings. -/
def appSet0 : AppSettings := ⟨false, true, true, "", false⟩

/-- A concrete collection holding `profile0`. -/
def collection0 : ProfileCollection := ⟨"1.0", some "p0", [profile0], appSet0⟩

/-- A stand-in JSON encoder for the codec-contract hypothesis. -/
def dumps0 : ProfileCollectionDict → String := fun _ => "doc"

/-- A stand-in JSON decoder returning `collection0`'s document. -/
def loads0 : String → Option ProfileCollectionDict :=
  fun _ => some collection0.to_dict

/-! ## Witnesses -/

/-- Witness for the amended C1 theorem at a concrete disabled rule. -/
theorem disabled_rules_inert_amended_witness :
    disabledGwRule.enabled = false ∧
    ((NetworkProfile.get_matching_rule reNone
        { profile0 with route_rules := [disabledGwRule] } "a.com" =
      NetworkProfile.get_matching_rule reNone
        { profile0 with route_rules := [] } "a.com") ∧
     (get_bypass_list_from_rules [disabledGwRule] =
      get_bypass_list_from_rules []) ∧
     ((apply_route_rules effConst [disabledGwRule] "g" false "" 8080).routeCmds =
      (apply_route_rules effConst [] "g" false "" 8080).routeCmds) ∧
     ((apply_route_rules effConst [disabledGwRule] "g" false "" 8080).pacAction =
      (apply_route_rules effConst [] "g" false "" 8080).pacAction) ∧
     (clear_static_routes effConst [] =
      clear_static_routes effConst (List.filter
        (fun r => r.use_custom_gateway && r.custom_gateway != "") []))) :=
  ⟨rfl, disabled_rules_inert_amended reNone effConst disabledGwRule rfl
    [] [] [] profile0 "a.com" "g" "" false 8080⟩

/-- Witness for the C5 theorem on a two-rule list (one contributing suffix
bypass rule, one disabled rule). -/
theorem pac_clauses_exactly_contributing_rules_witness :
    (∀ r ∈ [bypassSuffixRule, disabledGwRule],
      r.match_type ∈ valid_match_types) ∧
    (pac_clauses (proxy_rules_of [bypassSuffixRule, disabledGwRule]) =
      ([bypassSuffixRule, disabledGwRule].filter pac_contributes).map
        (fun r => (pac_clause r).getD "") ∧
     pac_conditions (proxy_rules_of [bypassSuffixRule, disabledGwRule]) =
      ([bypassSuffixRule, disabledGwRule].filter pac_contributes).flatMap
        pac_rule_lines ∧
     ∀ r ∈ [bypassSuffixRule, disabledGwRule], pac_contributes r = true →
       (pac_clause r).isSome = true) :=
  ⟨by decide,
   pac_clauses_exactly_contributing_rules [bypassSuffixRule, disabledGwRule]
     (by decide)⟩

/-- Witness for the C6 determinism theorem at a concrete input. -/
theorem pac_generation_deterministic_witness :
    ([bypassSuffixRule] = [bypassSuffixRule] ∧ true = true ∧ "" = "" ∧
      (8080 : Int) = 8080) ∧
    pac_content [bypassSuffixRule] true "" 8080 =
      pac_content [bypassSuffixRule] true "" 8080 :=
  ⟨⟨rfl, rfl, rfl, rfl⟩,
   pac_generation_deterministic [bypassSuffixRule] [bypassSuffixRule]
     true true "" "" 8080 8080 ⟨rfl, rfl, rfl, rfl⟩⟩

/-- Witness for the C7 regex theorem on a concrete regex rule and an oracle
on which every pattern fails to compile. -/
theorem regex_rule_matches_spec_witness :
    regexRule.match_type = "regex" ∧
    ((∀ d, reNone (pyLower regexRule.pattern) (pyLower d) = none →
        regexRule.matches reNone d = false) ∧
     regexRule.matches reNone "api7.example.com" =
       (!(regexRule.pattern == "") && !("api7.example.com" == "") &&
         (reNone (pyLower regexRule.pattern)
           (pyLower "api7.example.com")).getD false)) :=
  ⟨rfl, regex_rule_matches_spec reNone regexRule "api7.example.com" rfl⟩

/-- Witness for the C8 merge theorem at two identical-pattern bypass rules
and the default bypass items. -/
theorem bypass_merge_no_duplicates_witness :
    (bypassSuffixRule ∈ [bypassSuffixRule, bypassSuffixRule2] ∧
     bypassSuffixRule2 ∈ [bypassSuffixRule, bypassSuffixRule2] ∧
     bypassSuffixRule ≠ bypassSuffixRule2 ∧
     bypassSuffixRule.enabled = true ∧ bypassSuffixRule2.enabled = true ∧
     bypassSuffixRule.bypass_proxy = true ∧
     bypassSuffixRule2.bypass_proxy = true ∧
     bypassSuffixRule.pattern = bypassSuffixRule2.pattern ∧
     bypassSuffixRule.match_type = bypassSuffixRule2.match_type) ∧
    (∃ fresh,
      merge_bypass ["localhost", "127.0.0.1"]
          (get_bypass_list_from_rules [bypassSuffixRule, bypassSuffixRule2]) =
        ["localhost", "127.0.0.1"] ++ fresh ∧
      fresh.Nodup ∧
      (∀ x ∈ fresh, x ∉ (["localhost", "127.0.0.1"] : List String) ∧
        x ∈ get_bypass_list_from_rules [bypassSuffixRule, bypassSuffixRule2]) ∧
      ∀ x ∈ get_bypass_list_from_rules [bypassSuffixRule, bypassSuffixRule2],
        x ∈ merge_bypass ["localhost", "127.0.0.1"]
          (get_bypass_list_from_rules [bypassSuffixRule, bypassSuffixRule2])) :=
  ⟨⟨by decide, by decide, by decide, rfl, rfl, rfl, rfl, rfl, rfl⟩,
   bypass_merge_no_duplicates [bypassSuffixRule, bypassSuffixRule2]
     ["localhost", "127.0.0.1"] bypassSuffixRule bypassSuffixRule2
     (by decide) (by decide) (by decide) rfl rfl rfl rfl rfl rfl⟩

/-- Witness for the C9 round-trip theorem at a concrete profile, collection
and codec pair satisfying the codec contract. -/
theorem serialization_roundtrip_rules_witness :
    loads0 (dumps0 collection0.to_dict) = some collection0.to_dict ∧
    (NetworkProfile.from_dict profile0.to_dict = profile0 ∧
     (NetworkProfile.from_dict profile0.to_dict).route_rules =
       profile0.route_rules ∧
     ProfileCollection.from_json loads0
       (ProfileCollection.to_json dumps0 collection0) = some collection0) :=
  ⟨rfl, serialization_roundtrip_rules profile0 collection0 dumps0 loads0 rfl⟩

/-- Witness for the C10 theorem on a single enabled rule with
`use_custom_proxy` set and an empty server. -/
theorem pac_written_despite_empty_custom_server_witness :
    ((∃ r ∈ [emptyServerRule], r.enabled = true ∧
        (r.bypass_proxy = true ∨ r.use_custom_proxy = true)) ∧
     ∀ r ∈ [emptyServerRule], r.enabled = true →
       (r.bypass_proxy = true ∨ r.use_custom_proxy = true) →
       r.bypass_proxy = false ∧ r.use_custom_proxy = true ∧
         r.custom_proxy_server = "") ∧
    ((apply_route_rules effConst [emptyServerRule] "g" false "" 8080).pacAction =
      PacAction.write (pac_content (proxy_rules_of [emptyServerRule])
        false "" 8080) ∧
     pac_conditions (proxy_rules_of [emptyServerRule]) = []) :=
  ⟨⟨by decide, by decide⟩,
   pac_written_despite_empty_custom_server effConst [emptyServerRule]
     "g" false "" 8080 (by decide) (by decide)⟩

end GatewaySwitcher
